import Mathlib

/-!
Shallow embedding of the `useSubscribe` hook (replicache-react, src/index.ts)
and its module-level microtask batch scheduler.

Values delivered by queries and stored in React state are modelled by `JSVal`,
which keeps JavaScript's three-way distinction between `undefined` (the absent
sentinel used by the hook), `null` (a real datum) and ordinary data.  The
subscribable argument `r` is modelled by `RVal`, which distinguishes `null`,
`undefined` and object identities (identity comparison in the source is `!==`
on references; here it is equality of identity tags).

The hook's per-instance mutable cells (`useState` snapshot, `prevSnapshotRef`,
`generationRef`, `prevRRef`, `prevDepsRef`, `hasRunEffectRef`) become fields of
`HookState`.  Each `r.subscribe` call made by the effect creates a
`Subscription` record holding the captured generation (`currentGen`) and the
closure-mutable `isMounted` flag; the list of all subscriptions ever created by
the instance is kept so that a stale subscription's `onData` can still be
delivered after teardown, exactly as in the source.

The module-global scheduler (`callbacks`, `hasPendingCallback`, `doCallback`)
is modelled generically over the world type `W` that the callbacks mutate and
the callback representation `Cb`; `pendingFlushes` counts microtask-queued
`doCallback` invocations produced by `Promise.resolve().then(doCallback)`.
-/

namespace ReplicacheReact

/-- JavaScript value with the distinctions the hook cares about:
`undefined` (absent sentinel), `null` (real data) and other data. -/
inductive JSVal where
  | vundef
  | vnull
  | vdata (n : Nat)
deriving DecidableEq, Repr

/-- The `r : Subscribable | null | undefined` argument: `null`, `undefined`,
or a subscribable object identified by an identity tag. -/
inductive RVal where
  | rnull
  | rundef
  | rsrc (id : Nat)
deriving DecidableEq, Repr

/-- `!r` in the source: objects are truthy, so only `null`/`undefined` are absent. -/
def RVal.isAbsent : RVal → Bool
  | .rnull => true
  | .rundef => true
  | .rsrc _ => false

/-- The options record `{default, dependencies, isEqual, keepPreviousData}`;
`dependencies` is passed separately to each operation, and `isEqual` is only
forwarded to the source, so neither is a field here. -/
structure UseSubscribeOptions where
  default : JSVal := JSVal.vundef
  keepPreviousData : Bool := true
deriving DecidableEq, Repr

/-- One `r.subscribe(...)` call made by the effect: `gen` is the captured
`currentGen = ++generationRef.current`, `isMounted` the closure-mutable `let
isMounted = true` flag flipped to `false` by the effect's cleanup. -/
structure Subscription where
  gen : Nat
  isMounted : Bool
deriving DecidableEq, Repr

/-- The per-instance mutable cells of the hook. -/
structure HookState where
  /-- `useState<QueryRet | undefined>(undefined)` commit slot. -/
  snapshot : JSVal := JSVal.vundef
  /-- `prevSnapshotRef.current`. -/
  prevSnapshot : JSVal := JSVal.vundef
  /-- `generationRef.current`. -/
  generation : Nat := 0
  /-- `prevRRef.current` (initial value `undefined`). -/
  prevR : RVal := RVal.rundef
  /-- `prevDepsRef.current` (initial value `[]`); dependencies are opaque
  identity keys, modelled as `Nat` tags compared with `Object.is`. -/
  prevDeps : List Nat := []
  /-- `hasRunEffectRef.current`. -/
  hasRunEffect : Bool := false
deriving DecidableEq, Repr

/-- State of the hook at component birth. -/
def initHookState : HookState := {}

/-- A hook instance: its mutable cells plus every subscription it has created,
indexed by creation order (subscription ids). -/
structure HookInstance where
  hook : HookState
  subs : List Subscription
deriving DecidableEq, Repr

/-- Instance state at component birth. -/
def initInstance : HookInstance := { hook := initHookState, subs := [] }

/-- `dependencies.length !== prevDeps.length || dependencies.some((dep, i) =>
!Object.is(dep, prevDeps[i]))`; when the lengths agree the indexed `some` is
the pairwise comparison of the zipped lists. -/
def depsChanged (deps prevDeps : List Nat) : Bool :=
  decide (deps.length ≠ prevDeps.length) ||
    (deps.zip prevDeps).any (fun p => p.1 != p.2)

/-- `const hasTransitioned = (r !== prevRRef.current || depsChanged) &&
hasRunEffectRef.current`, computed during render. -/
def hasTransitioned (s : HookState) (r : RVal) (deps : List Nat) : Bool :=
  (r != s.prevR || depsChanged deps s.prevDeps) && s.hasRunEffect

/-- The value the hook returns from a render, given the current cells
(lines 320-336 of the source): the transition fast path, then the
`snapshot === undefined` fallback through the previous-value cache. -/
def renderValue (opts : UseSubscribeOptions) (s : HookState) (r : RVal)
    (deps : List Nat) : JSVal :=
  if hasTransitioned s r deps && !opts.keepPreviousData then
    opts.default
  else if s.snapshot == JSVal.vundef then
    if opts.keepPreviousData && s.prevSnapshot != JSVal.vundef then
      s.prevSnapshot
    else
      opts.default
  else
    s.snapshot

/-- The effect body (lines 263-306): record that the effect has run and commit
`prevR`/`prevDeps`; bail out with no subscription when `!r`; otherwise capture
the rendered snapshot into the previous-value cache (when retention is on and
the snapshot is real), increment the generation, and create the subscription
with the new generation captured and `isMounted = true`.  Returns the new
subscription's id when one was created. -/
def runEffect (opts : UseSubscribeOptions) (inst : HookInstance) (r : RVal)
    (deps : List Nat) : HookInstance × Option Nat :=
  let h0 := { inst.hook with hasRunEffect := true, prevR := r, prevDeps := deps }
  if r.isAbsent then
    ({ inst with hook := h0 }, none)
  else
    let h1 :=
      if opts.keepPreviousData && h0.snapshot != JSVal.vundef then
        { h0 with prevSnapshot := h0.snapshot }
      else h0
    let h2 := { h1 with generation := h1.generation + 1 }
    ({ hook := h2, subs := inst.subs ++ [⟨h2.generation, true⟩] },
     some inst.subs.length)

/-- Flip subscription `i`'s closure-captured `isMounted` flag to `false`. -/
def setUnmounted : List Subscription → Nat → List Subscription
  | [], _ => []
  | sub :: rest, 0 => { sub with isMounted := false } :: rest
  | sub :: rest, i + 1 => sub :: setUnmounted rest i

/-- The effect's cleanup (lines 308-317) for the effect that created
subscription `i`: `isMounted = false`, unsubscribe, always clear
`prevSnapshotRef`, and reset the snapshot only when retention is off. -/
def runCleanup (opts : UseSubscribeOptions) (inst : HookInstance) (i : Nat) :
    HookInstance :=
  let h0 := { inst.hook with prevSnapshot := JSVal.vundef }
  let h1 := if !opts.keepPreviousData then { h0 with snapshot := JSVal.vundef } else h0
  { hook := h1, subs := setUnmounted inst.subs i }

/-- A queued render callback `() => { if (isMounted) setSnapshot(data) }`,
represented by the data its closure captured. -/
structure PendingCb where
  subId : Nat
  data : JSVal
deriving DecidableEq, Repr

/-- The `onData` handler of subscription `i` (lines 284-304): discard when the
captured generation differs from the current one; otherwise record the datum
in the previous-value cache and enqueue the guarded `setSnapshot` callback. -/
def onData (inst : HookInstance) (pending : List PendingCb) (i : Nat)
    (d : JSVal) : HookInstance × List PendingCb :=
  match inst.subs[i]? with
  | none => (inst, pending)
  | some sub =>
    if sub.gen != inst.hook.generation then
      (inst, pending)
    else
      ({ inst with hook := { inst.hook with prevSnapshot := d } },
       pending ++ [⟨i, d⟩])

/-- Run one queued callback at flush time: `if (isMounted) setSnapshot(data)`,
reading the subscription's current `isMounted` flag. -/
def applyCallback (inst : HookInstance) (cb : PendingCb) : HookInstance :=
  match inst.subs[cb.subId]? with
  | none => inst
  | some sub =>
    if sub.isMounted then
      { inst with hook := { inst.hook with snapshot := cb.data } }
    else
      inst

/-! ## The module-global batch scheduler

`let hasPendingCallback = false; let callbacks = [];` together with the
microtask queue of scheduled `doCallback` invocations. -/

/-- The scheduler's global state, generic in the callback representation.
`pendingFlushes` counts `doCallback` invocations sitting in the microtask
queue via `Promise.resolve().then(doCallback)`. -/
structure Scheduler (Cb : Type) where
  callbacks : List Cb
  hasPendingCallback : Bool
  pendingFlushes : Nat
deriving DecidableEq, Repr

/-- The scheduler before any callback has been enqueued in the current tick. -/
def Scheduler.idle {Cb : Type} : Scheduler Cb :=
  { callbacks := [], hasPendingCallback := false, pendingFlushes := 0 }

/-- The enqueue path run inside `onData` (lines 294-303): `callbacks.push(cb);
if (!hasPendingCallback) { void Promise.resolve().then(doCallback);
hasPendingCallback = true; }`. -/
def pushCallback {Cb : Type} (s : Scheduler Cb) (cb : Cb) : Scheduler Cb :=
  let s1 := { s with callbacks := s.callbacks ++ [cb] }
  if s1.hasPendingCallback then
    s1
  else
    { s1 with hasPendingCallback := true, pendingFlushes := s1.pendingFlushes + 1 }

/-- Outcome of invoking one callback: it returns normally, having mutated the
world to `w` and enqueued `enq` further callbacks through `pushCallback`, or it
throws `msg`. -/
inductive CbResult (W Cb : Type) where
  | ok (w : W) (enq : List Cb)
  | err (msg : String)

/-- The head of `doCallback` (lines 145-147): take the queue (`const cbs =
callbacks`), swap in an empty one, reset the flag; running the scheduled
microtask also removes it from the microtask queue. -/
def flushStart {Cb : Type} (s : Scheduler Cb) : Scheduler Cb :=
  { s with callbacks := [], hasPendingCallback := false,
           pendingFlushes := s.pendingFlushes - 1 }

/-- The `for (const callback of cbs) { try { callback(); } catch (e) {
console.error(...); } }` loop, with `step` giving each callback's behaviour
and `log` accumulating the reported errors. -/
def flushLoop {W Cb : Type} (step : Cb → W → CbResult W Cb) :
    List Cb → W → Scheduler Cb → List String → W × Scheduler Cb × List String
  | [], w, s, log => (w, s, log)
  | cb :: rest, w, s, log =>
    match step cb w with
    | .ok w1 enq => flushLoop step rest w1 (enq.foldl pushCallback s) log
    | .err e => flushLoop step rest w s (log ++ [e])

/-- `doCallback` (lines 144-156): swap the queue for an empty one and reset
the flag, then invoke every captured callback in enqueue order, isolating
failures. -/
def doCallback {W Cb : Type} (step : Cb → W → CbResult W Cb) (w : W)
    (s : Scheduler Cb) : W × Scheduler Cb × List String :=
  flushLoop step s.callbacks w (flushStart s) []

/-- A callback that always returns normally, updates the world with `f` and
enqueues nothing further. -/
def pureStep {W Cb : Type} (f : Cb → W → W) : Cb → W → CbResult W Cb :=
  fun cb w => CbResult.ok (f cb w) []

/-- A callback family in which the callbacks selected by `isBad` throw `e` and
the rest update the world with `f`. -/
def stepOr {W Cb : Type} (isBad : Cb → Bool) (e : String) (f : Cb → W → W) :
    Cb → W → CbResult W Cb :=
  fun cb w => if isBad cb then CbResult.err e else CbResult.ok (f cb w) []

/-! ## Helper lemmas about the hook operations -/

theorem setUnmounted_get? (l : List Subscription) (i : Nat) :
    (setUnmounted l i)[i]?
      = l[i]?.map (fun sub => { sub with isMounted := false }) := by
  induction l generalizing i with
  | nil => simp [setUnmounted]
  | cons sub rest ih =>
    cases i with
    | zero => simp [setUnmounted]
    | succ j => simpa [setUnmounted] using ih j

theorem runEffect_present (opts : UseSubscribeOptions) (inst : HookInstance)
    (r : RVal) (deps : List Nat) (hr : r.isAbsent = false) :
    runEffect opts inst r deps =
      ({ hook := { snapshot := inst.hook.snapshot,
                   prevSnapshot :=
                     if opts.keepPreviousData && inst.hook.snapshot != JSVal.vundef
                     then inst.hook.snapshot else inst.hook.prevSnapshot,
                   generation := inst.hook.generation + 1,
                   prevR := r, prevDeps := deps, hasRunEffect := true },
         subs := inst.subs ++ [⟨inst.hook.generation + 1, true⟩] },
       some inst.subs.length) := by
  by_cases hc : opts.keepPreviousData = true ∧ ¬inst.hook.snapshot = JSVal.vundef <;>
    simp [runEffect, hr, hc]

theorem runEffect_absent (opts : UseSubscribeOptions) (inst : HookInstance)
    (r : RVal) (deps : List Nat) (ha : r.isAbsent = true) :
    runEffect opts inst r deps =
      ({ inst with
         hook := { inst.hook with hasRunEffect := true, prevR := r, prevDeps := deps } },
       none) := by
  simp [runEffect, ha]

theorem runCleanup_eq (opts : UseSubscribeOptions) (inst : HookInstance) (i : Nat) :
    runCleanup opts inst i =
      { hook := { inst.hook with
                  prevSnapshot := JSVal.vundef,
                  snapshot := if opts.keepPreviousData then inst.hook.snapshot
                              else JSVal.vundef },
        subs := setUnmounted inst.subs i } := by
  cases h : opts.keepPreviousData <;> simp [runCleanup, h]

theorem onData_stale (inst : HookInstance) (pending : List PendingCb) (i : Nat)
    (d : JSVal) (sub : Subscription) (hget : inst.subs[i]? = some sub)
    (hne : sub.gen ≠ inst.hook.generation) :
    onData inst pending i d = (inst, pending) := by
  simp [onData, hget, hne]

theorem onData_current (inst : HookInstance) (pending : List PendingCb) (i : Nat)
    (d : JSVal) (sub : Subscription) (hget : inst.subs[i]? = some sub)
    (heq : sub.gen = inst.hook.generation) :
    onData inst pending i d =
      ({ inst with hook := { inst.hook with prevSnapshot := d } },
       pending ++ [⟨i, d⟩]) := by
  simp [onData, hget, heq]

theorem onData_fst_snapshot (inst : HookInstance) (pending : List PendingCb)
    (i : Nat) (d : JSVal) :
    ((onData inst pending i d).1).hook.snapshot = inst.hook.snapshot := by
  unfold onData
  cases hget : inst.subs[i]? with
  | none => rfl
  | some sub => dsimp only; split <;> rfl

theorem applyCallback_mounted (inst : HookInstance) (cb : PendingCb)
    (sub : Subscription) (hget : inst.subs[cb.subId]? = some sub)
    (hm : sub.isMounted = true) :
    applyCallback inst cb = { inst with hook := { inst.hook with snapshot := cb.data } } := by
  simp [applyCallback, hget, hm]

theorem applyCallback_unmounted (inst : HookInstance) (cb : PendingCb)
    (sub : Subscription) (hget : inst.subs[cb.subId]? = some sub)
    (hm : sub.isMounted = false) :
    applyCallback inst cb = inst := by
  simp [applyCallback, hget, hm]

theorem renderValue_keep (opts : UseSubscribeOptions) (s : HookState) (r : RVal)
    (deps : List Nat) (hk : opts.keepPreviousData = true) :
    renderValue opts s r deps =
      if s.snapshot == JSVal.vundef then
        (if s.prevSnapshot != JSVal.vundef then s.prevSnapshot else opts.default)
      else s.snapshot := by
  simp [renderValue, hk]

theorem getElem?_lt_length {α : Type} {l : List α} {i : Nat} {a : α}
    (h : l[i]? = some a) : i < l.length := by
  by_contra hge
  push_neg at hge
  rw [List.getElem?_eq_none hge] at h
  exact Option.noConfusion h

/-! ## Claim theorems -/

/-- C1: when a new subscription supersedes an old one (the effect re-ran and
incremented the generation counter), a Data event delivered by the old
subscription is discarded by the generation check in `onData`: the instance and
the pending-callback queue are unchanged, so no render can observe a different
value. -/
theorem c1_stale_rejection (opts : UseSubscribeOptions) (inst : HookInstance)
    (r : RVal) (deps : List Nat) (pending : List PendingCb) (i : Nat) (d : JSVal)
    (sub : Subscription)
    (hget : inst.subs[i]? = some sub)
    (hgen : sub.gen ≤ inst.hook.generation)
    (hr : r.isAbsent = false) :
    onData (runEffect opts inst r deps).1 pending i d
      = ((runEffect opts inst r deps).1, pending) ∧
    ∀ r2 deps2,
      renderValue opts ((onData (runEffect opts inst r deps).1 pending i d).1).hook r2 deps2
        = renderValue opts ((runEffect opts inst r deps).1).hook r2 deps2 := by
  have hlt : i < inst.subs.length := getElem?_lt_length hget
  have hget2 : ((runEffect opts inst r deps).1).subs[i]? = some sub := by
    rw [runEffect_present opts inst r deps hr]
    simpa [List.getElem?_append_left hlt] using hget
  have hne : sub.gen ≠ ((runEffect opts inst r deps).1).hook.generation := by
    rw [runEffect_present opts inst r deps hr]
    simp only
    omega
  have hmain := onData_stale _ pending i d sub hget2 hne
  exact ⟨hmain, fun r2 deps2 => by rw [hmain]⟩

/-- C1 witness: a concrete instance whose only subscription (generation 1) is
superseded by the effect re-running; its Data event is then a no-op. -/
theorem c1_stale_rejection_witness :
    onData (runEffect { default := JSVal.vundef, keepPreviousData := true }
              { hook := { initHookState with generation := 1 },
                subs := [⟨1, true⟩] } (RVal.rsrc 2) []).1 [] 0 (JSVal.vdata 9)
      = ((runEffect { default := JSVal.vundef, keepPreviousData := true }
            { hook := { initHookState with generation := 1 },
              subs := [⟨1, true⟩] } (RVal.rsrc 2) []).1, []) :=
  (c1_stale_rejection { default := JSVal.vundef, keepPreviousData := true }
    { hook := { initHookState with generation := 1 }, subs := [⟨1, true⟩] }
    (RVal.rsrc 2) [] [] 0 (JSVal.vdata 9) ⟨1, true⟩ rfl (by decide) rfl).1

/-- C3: on a render that detects a transition with `keepPreviousData = false`,
the hook returns the configured default at once, regardless of the snapshot and
previous-value cache. -/
theorem c3_reset_invariant (opts : UseSubscribeOptions) (s : HookState)
    (r : RVal) (deps : List Nat)
    (ht : hasTransitioned s r deps = true)
    (hk : opts.keepPreviousData = false) :
    renderValue opts s r deps = opts.default := by
  simp [renderValue, ht, hk]

/-- C3 witness: a transition render (source identity changed after a completed
effect) with retention off returns the default even though a real value is
committed. -/
theorem c3_reset_invariant_witness :
    renderValue { default := JSVal.vdata 0, keepPreviousData := false }
      { initHookState with
        snapshot := JSVal.vdata 7, prevR := RVal.rsrc 1, hasRunEffect := true }
      (RVal.rsrc 2) [] = JSVal.vdata 0 :=
  c3_reset_invariant _ _ _ _ (by decide) rfl

/-- C5: tearing down because the source became absent does not increment the
generation counter (the effect bails out before the increment and creates no
subscription), so a later Data event from the torn-down subscription passes the
generation check: it overwrites the previous-value cache with the stale value
and enqueues its callback; only the `isMounted` flag, checked at flush time,
keeps the stale value out of the committed snapshot. -/
theorem c5_absent_teardown (opts : UseSubscribeOptions) (inst : HookInstance)
    (i : Nat) (deps : List Nat) (d : JSVal) (pending : List PendingCb)
    (sub : Subscription)
    (hget : inst.subs[i]? = some sub)
    (hgen : sub.gen = inst.hook.generation) :
    ((runEffect opts (runCleanup opts inst i) RVal.rnull deps).1).hook.generation
      = inst.hook.generation ∧
    (runEffect opts (runCleanup opts inst i) RVal.rnull deps).2 = none ∧
    ((onData (runEffect opts (runCleanup opts inst i) RVal.rnull deps).1 pending i d).1).hook.prevSnapshot
      = d ∧
    (onData (runEffect opts (runCleanup opts inst i) RVal.rnull deps).1 pending i d).2
      = pending ++ [⟨i, d⟩] ∧
    applyCallback
        (onData (runEffect opts (runCleanup opts inst i) RVal.rnull deps).1 pending i d).1
        ⟨i, d⟩
      = (onData (runEffect opts (runCleanup opts inst i) RVal.rnull deps).1 pending i d).1 := by
  have habs : RVal.rnull.isAbsent = true := rfl
  have heffect := runEffect_absent opts (runCleanup opts inst i) RVal.rnull deps habs
  have hclean := runCleanup_eq opts inst i
  have hget2 :
      ((runEffect opts (runCleanup opts inst i) RVal.rnull deps).1).subs[i]?
        = some { sub with isMounted := false } := by
    rw [heffect, hclean]
    simp [setUnmounted_get?, hget]
  have hgen2 :
      ((runEffect opts (runCleanup opts inst i) RVal.rnull deps).1).hook.generation
        = inst.hook.generation := by
    rw [heffect, hclean]
  have hdata := onData_current _ pending i d { sub with isMounted := false } hget2
    (by simpa [hgen2] using hgen)
  refine ⟨hgen2, by rw [heffect], by rw [hdata], by rw [hdata], ?_⟩
  refine applyCallback_unmounted _ _ { sub with isMounted := false } ?_ rfl
  rw [hdata]
  simpa using hget2

/-- C5 witness: a concrete instance whose mounted current-generation
subscription is torn down by an absent-source render; the stale Data event
still rewrites the cache and only `isMounted` blocks the snapshot write. -/
theorem c5_absent_teardown_witness :
    ((onData (runEffect { default := JSVal.vdata 0, keepPreviousData := true }
        (runCleanup { default := JSVal.vdata 0, keepPreviousData := true }
          { hook := { initHookState with generation := 1, snapshot := JSVal.vdata 7 },
            subs := [⟨1, true⟩] } 0) RVal.rnull []).1 [] 0 (JSVal.vdata 42)).1).hook.prevSnapshot
      = JSVal.vdata 42 :=
  (c5_absent_teardown { default := JSVal.vdata 0, keepPreviousData := true }
    { hook := { initHookState with generation := 1, snapshot := JSVal.vdata 7 },
      subs := [⟨1, true⟩] } 0 [] (JSVal.vdata 42) [] ⟨1, true⟩ rfl rfl).2.2.1

/-- C2 counterexample: with retention on, the real value 5 is returned by the
renders before a dependency transition (it had been received into the
previous-value cache, though its callback had not yet flushed), and by the
transition render itself; yet the render that follows the transition's cleanup
and re-subscription, still before any Data event from the new subscription,
returns the default 99: cleanup clears the cache and the effect cannot
recapture a snapshot that is still absent. -/
theorem c2_no_flash_counterexample :
    let opts : UseSubscribeOptions := { default := JSVal.vdata 99, keepPreviousData := true }
    let afterMount := (runEffect opts initInstance (RVal.rsrc 1) []).1
    let received := (onData afterMount [] 0 (JSVal.vdata 5)).1
    let afterTransition :=
      (runEffect opts (runCleanup opts received 0) (RVal.rsrc 1) [1]).1
    renderValue opts received.hook (RVal.rsrc 1) [] = JSVal.vdata 5 ∧
    hasTransitioned received.hook (RVal.rsrc 1) [1] = true ∧
    renderValue opts received.hook (RVal.rsrc 1) [1] = JSVal.vdata 5 ∧
    renderValue opts afterTransition.hook (RVal.rsrc 1) [1] = JSVal.vdata 99 ∧
    JSVal.vdata 99 ≠ JSVal.vdata 5 := by
  decide

/-- C2 (amended): with `keepPreviousData = true`, if a real value had been
applied (committed to the snapshot) before the transition, the transition
render and every render after the cleanup and re-subscription return that
committed value until the new subscription's first applied Data event; a Data
event that is received but not yet applied does not change this.  When no
value was ever applied, the transition render returns the last received value
if one exists (else the default) and renders after the new subscription's
setup return the default. -/
theorem c2_no_flash_amended (opts : UseSubscribeOptions) (inst : HookInstance)
    (iOld : Nat) (r2 : RVal) (deps2 : List Nat)
    (hk : opts.keepPreviousData = true) (hr : r2.isAbsent = false) :
    (inst.hook.snapshot ≠ JSVal.vundef →
      renderValue opts inst.hook r2 deps2 = inst.hook.snapshot) ∧
    (inst.hook.snapshot = JSVal.vundef → inst.hook.prevSnapshot ≠ JSVal.vundef →
      renderValue opts inst.hook r2 deps2 = inst.hook.prevSnapshot) ∧
    (inst.hook.snapshot = JSVal.vundef → inst.hook.prevSnapshot = JSVal.vundef →
      renderValue opts inst.hook r2 deps2 = opts.default) ∧
    (inst.hook.snapshot ≠ JSVal.vundef →
      renderValue opts ((runEffect opts (runCleanup opts inst iOld) r2 deps2).1).hook r2 deps2
        = inst.hook.snapshot ∧
      ∀ pending j d,
        renderValue opts
          ((onData (runEffect opts (runCleanup opts inst iOld) r2 deps2).1 pending j d).1).hook
          r2 deps2 = inst.hook.snapshot) ∧
    (inst.hook.snapshot = JSVal.vundef →
      renderValue opts ((runEffect opts (runCleanup opts inst iOld) r2 deps2).1).hook r2 deps2
        = opts.default) := by
  have hs2 : ((runEffect opts (runCleanup opts inst iOld) r2 deps2).1).hook.snapshot
      = inst.hook.snapshot := by
    rw [runCleanup_eq, runEffect_present _ _ _ _ hr]
    simp [hk]
  have hp2 : ((runEffect opts (runCleanup opts inst iOld) r2 deps2).1).hook.prevSnapshot
      = (if inst.hook.snapshot != JSVal.vundef then inst.hook.snapshot else JSVal.vundef) := by
    rw [runCleanup_eq, runEffect_present _ _ _ _ hr]
    simp [hk]
  refine ⟨?_, ?_, ?_, ?_, ?_⟩
  · intro hsnap
    rw [renderValue_keep _ _ _ _ hk]
    simp [hsnap]
  · intro hsnap hprev
    rw [renderValue_keep _ _ _ _ hk]
    simp [hsnap, hprev]
  · intro hsnap hprev
    rw [renderValue_keep _ _ _ _ hk]
    simp [hsnap, hprev]
  · intro hsnap
    constructor
    · rw [renderValue_keep _ _ _ _ hk, hs2]
      simp [hsnap]
    · intro pending j d
      rw [renderValue_keep _ _ _ _ hk, onData_fst_snapshot, hs2]
      simp [hsnap]
  · intro hsnap
    rw [renderValue_keep _ _ _ _ hk, hs2, hp2]
    simp [hsnap]

/-- C2 witness: with a committed value 3, the transition render and the render
after cleanup plus re-subscription both return 3, not the default 0. -/
theorem c2_no_flash_amended_witness :
    renderValue { default := JSVal.vdata 0, keepPreviousData := true }
      { initHookState with snapshot := JSVal.vdata 3 } (RVal.rsrc 2) [] = JSVal.vdata 3 ∧
    renderValue { default := JSVal.vdata 0, keepPreviousData := true }
      ((runEffect { default := JSVal.vdata 0, keepPreviousData := true }
        (runCleanup { default := JSVal.vdata 0, keepPreviousData := true }
          { hook := { initHookState with snapshot := JSVal.vdata 3 },
            subs := [⟨1, true⟩] } 0) (RVal.rsrc 2) []).1).hook
      (RVal.rsrc 2) [] = JSVal.vdata 3 :=
  ⟨(c2_no_flash_amended { default := JSVal.vdata 0, keepPreviousData := true }
      { hook := { initHookState with snapshot := JSVal.vdata 3 }, subs := [⟨1, true⟩] }
      0 (RVal.rsrc 2) [] rfl rfl).1 (by decide),
   ((c2_no_flash_amended { default := JSVal.vdata 0, keepPreviousData := true }
      { hook := { initHookState with snapshot := JSVal.vdata 3 }, subs := [⟨1, true⟩] }
      0 (RVal.rsrc 2) [] rfl rfl).2.2.2.1 (by decide)).1⟩

/-- C7: a delivered `null` is real data, distinct from the absent sentinel:
applying it commits `null` to the snapshot; a committed `null` is what the
hook returns (not the default); and across a `keepPreviousData` transition
`null` is recaptured into the previous-value cache and still returned. -/
theorem c7_null_is_data (opts : UseSubscribeOptions) (inst : HookInstance)
    (i : Nat) (sub : Subscription) (r : RVal) (deps : List Nat)
    (hget : inst.subs[i]? = some sub) (hm : sub.isMounted = true) :
    (applyCallback inst ⟨i, JSVal.vnull⟩).hook.snapshot = JSVal.vnull ∧
    JSVal.vnull ≠ JSVal.vundef ∧
    (inst.hook.snapshot = JSVal.vnull →
      (hasTransitioned inst.hook r deps = false ∨ opts.keepPreviousData = true) →
      renderValue opts inst.hook r deps = JSVal.vnull) ∧
    (inst.hook.snapshot = JSVal.vnull → opts.keepPreviousData = true →
      ∀ iOld r2 deps2, r2.isAbsent = false →
        ((runEffect opts (runCleanup opts inst iOld) r2 deps2).1).hook.prevSnapshot
          = JSVal.vnull ∧
        renderValue opts ((runEffect opts (runCleanup opts inst iOld) r2 deps2).1).hook
          r2 deps2 = JSVal.vnull) := by
  refine ⟨?_, by decide, ?_, ?_⟩
  · rw [applyCallback_mounted inst _ sub hget hm]
  · intro hsnap hcase
    rcases hcase with h | h <;> simp [renderValue, h, hsnap]
  · intro hsnap hk iOld r2 deps2 hr
    constructor
    · rw [runCleanup_eq, runEffect_present _ _ _ _ hr]
      simp [hk, hsnap]
    · have hs2 : ((runEffect opts (runCleanup opts inst iOld) r2 deps2).1).hook.snapshot
          = JSVal.vnull := by
        rw [runCleanup_eq, runEffect_present _ _ _ _ hr]
        simp [hk, hsnap]
      rw [renderValue_keep _ _ _ _ hk, hs2]
      simp

/-- C7 witness: a mounted subscription applying `null` commits `null`, and a
hook with committed `null` returns `null` rather than the default 4. -/
theorem c7_null_is_data_witness :
    (applyCallback { hook := initHookState, subs := [⟨1, true⟩] }
      ⟨0, JSVal.vnull⟩).hook.snapshot = JSVal.vnull ∧
    renderValue { default := JSVal.vdata 4, keepPreviousData := true }
      { initHookState with snapshot := JSVal.vnull } RVal.rnull [] = JSVal.vnull :=
  ⟨(c7_null_is_data { default := JSVal.vdata 4, keepPreviousData := true }
      { hook := initHookState, subs := [⟨1, true⟩] } 0 ⟨1, true⟩ RVal.rnull []
      rfl rfl).1,
   (c7_null_is_data { default := JSVal.vdata 4, keepPreviousData := true }
      { hook := { initHookState with snapshot := JSVal.vnull }, subs := [⟨1, true⟩] }
      0 ⟨1, true⟩ RVal.rnull [] rfl rfl).2.2.1 rfl (Or.inr rfl)⟩

/-- C8: every render returns the configured default or a value different from
`undefined`; and a delivery of `undefined` by the current subscription
overwrites the previous-value cache with `undefined` (erasing any retained
value), commits `undefined` once flushed, and every subsequent render then
returns the default. -/
theorem c8_undefined_excluded (opts : UseSubscribeOptions) (s : HookState)
    (r : RVal) (deps : List Nat) (inst : HookInstance) (pending : List PendingCb)
    (i : Nat) (sub : Subscription)
    (hget : inst.subs[i]? = some sub)
    (hgen : sub.gen = inst.hook.generation)
    (hm : sub.isMounted = true) :
    (renderValue opts s r deps = opts.default ∨
      renderValue opts s r deps ≠ JSVal.vundef) ∧
    ((onData inst pending i JSVal.vundef).1.hook.prevSnapshot = JSVal.vundef) ∧
    ((applyCallback (onData inst pending i JSVal.vundef).1 ⟨i, JSVal.vundef⟩).hook.snapshot
      = JSVal.vundef) ∧
    (∀ r2 deps2,
      renderValue opts
        (applyCallback (onData inst pending i JSVal.vundef).1 ⟨i, JSVal.vundef⟩).hook
        r2 deps2 = opts.default) := by
  have hd := onData_current inst pending i JSVal.vundef sub hget hgen
  have hget2 : ((onData inst pending i JSVal.vundef).1).subs[i]? = some sub := by
    rw [hd]
    exact hget
  have happly := applyCallback_mounted (onData inst pending i JSVal.vundef).1
    ⟨i, JSVal.vundef⟩ sub hget2 hm
  refine ⟨?_, by rw [hd], by rw [happly], ?_⟩
  · unfold renderValue
    split
    · exact Or.inl rfl
    · split
      · split
        · rename_i hcond
          simp only [Bool.and_eq_true, bne_iff_ne] at hcond
          exact Or.inr hcond.2
        · exact Or.inl rfl
      · rename_i hsnap
        simp only [beq_iff_eq] at hsnap
        exact Or.inr hsnap
  · intro r2 deps2
    rw [happly, hd]
    simp [renderValue]

/-- C8 witness: a concrete current-generation mounted subscription delivering
`undefined` erases the cached value 6 and leaves the hook returning the
default 2. -/
theorem c8_undefined_excluded_witness :
    ((onData { hook := { initHookState with generation := 1, prevSnapshot := JSVal.vdata 6 },
               subs := [⟨1, true⟩] } [] 0 JSVal.vundef).1.hook.prevSnapshot = JSVal.vundef) ∧
    (renderValue { default := JSVal.vdata 2, keepPreviousData := true }
      (applyCallback
        (onData { hook := { initHookState with generation := 1, prevSnapshot := JSVal.vdata 6 },
                  subs := [⟨1, true⟩] } [] 0 JSVal.vundef).1 ⟨0, JSVal.vundef⟩).hook
      (RVal.rsrc 1) [] = JSVal.vdata 2) :=
  ⟨(c8_undefined_excluded { default := JSVal.vdata 2, keepPreviousData := true }
      initHookState (RVal.rsrc 1) []
      { hook := { initHookState with generation := 1, prevSnapshot := JSVal.vdata 6 },
        subs := [⟨1, true⟩] } [] 0 ⟨1, true⟩ rfl rfl rfl).2.1,
   (c8_undefined_excluded { default := JSVal.vdata 2, keepPreviousData := true }
      initHookState (RVal.rsrc 1) []
      { hook := { initHookState with generation := 1, prevSnapshot := JSVal.vdata 6 },
        subs := [⟨1, true⟩] } [] 0 ⟨1, true⟩ rfl rfl rfl).2.2.2 (RVal.rsrc 1) []⟩

/-- C10: when the source is absent the effect creates no subscription (and the
total `renderValue` returns without error), and the render resolves to the
configured default or, with retention on, to a retained real value (the
committed snapshot or the previous-value cache).  The hypothesis `hsnap`
records that with retention off an absent-source state has no committed
snapshot, since cleanup reset it. -/
theorem c10_absent_source (opts : UseSubscribeOptions) (inst : HookInstance)
    (r : RVal) (deps : List Nat)
    (ha : r.isAbsent = true)
    (hsnap : opts.keepPreviousData = false → inst.hook.snapshot = JSVal.vundef) :
    (runEffect opts inst r deps).2 = none ∧
    ((runEffect opts inst r deps).1).subs = inst.subs ∧
    (renderValue opts inst.hook r deps = opts.default ∨
      (opts.keepPreviousData = true ∧
        renderValue opts inst.hook r deps ≠ JSVal.vundef ∧
        (renderValue opts inst.hook r deps = inst.hook.snapshot ∨
         renderValue opts inst.hook r deps = inst.hook.prevSnapshot))) := by
  refine ⟨by rw [runEffect_absent _ _ _ _ ha], by rw [runEffect_absent _ _ _ _ ha], ?_⟩
  cases hk : opts.keepPreviousData with
  | false =>
    left
    have hs := hsnap hk
    unfold renderValue
    split
    · rfl
    · simp [hs, hk]
  | true =>
    rw [renderValue_keep _ _ _ _ hk]
    by_cases h1 : inst.hook.snapshot = JSVal.vundef
    · by_cases h2 : inst.hook.prevSnapshot = JSVal.vundef
      · left
        simp [h1, h2]
      · right
        exact ⟨rfl, by simp [h1, h2], Or.inr (by simp [h1, h2])⟩
    · right
      exact ⟨rfl, by simp [h1], Or.inl (by simp [h1])⟩

/-- C10 witness: an absent (null) source creates no subscription and the hook
falls back to the default 8. -/
theorem c10_absent_source_witness :
    (runEffect { default := JSVal.vdata 8, keepPreviousData := true }
      initInstance RVal.rnull []).2 = none ∧
    renderValue { default := JSVal.vdata 8, keepPreviousData := true }
      initHookState RVal.rnull [] = JSVal.vdata 8 := by
  have h := c10_absent_source { default := JSVal.vdata 8, keepPreviousData := true }
    initInstance RVal.rnull [] rfl (fun hc => by cases hc)
  refine ⟨h.1, ?_⟩
  rcases h.2.2 with hdef | ⟨-, hne, hval | hval⟩
  · exact hdef
  · exact absurd (hval.trans rfl) hne
  · exact absurd (hval.trans rfl) hne

/-! ## Transition-detector lemmas -/

theorem zip_any_ne_iff (deps prev : List Nat) :
    ((deps.zip prev).any (fun p => p.1 != p.2) = true) ↔
      ∃ i, i < deps.length ∧ i < prev.length ∧ deps[i]? ≠ prev[i]? := by
  induction deps generalizing prev with
  | nil => simp
  | cons a as ih =>
    cases prev with
    | nil => simp
    | cons b bs =>
      simp only [List.zip_cons_cons, List.any_cons, Bool.or_eq_true, bne_iff_ne, ih]
      constructor
      · rintro (hab | ⟨i, h1, h2, h3⟩)
        · exact ⟨0, by simp, by simp, by simpa using hab⟩
        · exact ⟨i + 1, by simpa using h1, by simpa using h2, by simpa using h3⟩
      · rintro ⟨i, h1, h2, h3⟩
        cases i with
        | zero => exact Or.inl (by simpa using h3)
        | succ j =>
          exact Or.inr ⟨j, by simpa using h1, by simpa using h2, by simpa using h3⟩

theorem depsChanged_iff (deps prev : List Nat) :
    depsChanged deps prev = true ↔
      (deps.length ≠ prev.length ∨
        ∃ i, i < deps.length ∧ i < prev.length ∧ deps[i]? ≠ prev[i]?) := by
  simp only [depsChanged, Bool.or_eq_true, decide_eq_true_eq, zip_any_ne_iff]

/-- C9: the transition detector fires exactly when, compared with the values
committed by the last completed effect, the source differs by identity or the
dependency list differs element-wise (lists of different lengths always
differ); it never fires before a first effect has completed (first mount), and
each effect run commits the compared-against source, dependency list and
has-run flag. -/
theorem c9_transition_detector :
    (∀ (r : RVal) (deps : List Nat), hasTransitioned initHookState r deps = false) ∧
    (∀ (s : HookState) (r : RVal) (deps : List Nat),
      hasTransitioned s r deps = true ↔
        (s.hasRunEffect = true ∧
          (r ≠ s.prevR ∨ deps.length ≠ s.prevDeps.length ∨
            ∃ i, i < deps.length ∧ i < s.prevDeps.length ∧
              deps[i]? ≠ s.prevDeps[i]?))) ∧
    (∀ (opts : UseSubscribeOptions) (inst : HookInstance) (r0 : RVal) (deps0 : List Nat),
      ((runEffect opts inst r0 deps0).1).hook.prevR = r0 ∧
      ((runEffect opts inst r0 deps0).1).hook.prevDeps = deps0 ∧
      ((runEffect opts inst r0 deps0).1).hook.hasRunEffect = true) := by
  refine ⟨?_, ?_, ?_⟩
  · intro r deps
    simp [hasTransitioned, initHookState]
  · intro s r deps
    simp only [hasTransitioned, Bool.and_eq_true, Bool.or_eq_true, bne_iff_ne,
      depsChanged_iff]
    tauto
  · intro opts inst r0 deps0
    by_cases habs : r0.isAbsent = true
    · rw [runEffect_absent _ _ _ _ habs]
      exact ⟨rfl, rfl, rfl⟩
    · rw [runEffect_present _ _ _ _ (by simpa using habs)]
      exact ⟨rfl, rfl, rfl⟩

/-- C9 witness: the detector is silent on first mount and fires on a concrete
source-identity change after an effect has completed. -/
theorem c9_transition_detector_witness :
    hasTransitioned initHookState (RVal.rsrc 1) [] = false ∧
    hasTransitioned
      { initHookState with prevR := RVal.rsrc 1, hasRunEffect := true }
      (RVal.rsrc 2) [] = true :=
  ⟨c9_transition_detector.1 (RVal.rsrc 1) [],
   (c9_transition_detector.2.1
      { initHookState with prevR := RVal.rsrc 1, hasRunEffect := true }
      (RVal.rsrc 2) []).mpr ⟨rfl, Or.inl (by decide)⟩⟩

/-! ## Scheduler lemmas -/

theorem pushCallback_flagged {Cb : Type} (s : Scheduler Cb) (cb : Cb)
    (h : s.hasPendingCallback = true) :
    pushCallback s cb = { s with callbacks := s.callbacks ++ [cb] } := by
  simp [pushCallback, h]

theorem foldl_pushCallback_flagged {Cb : Type} (cbs : List Cb) (s : Scheduler Cb)
    (h : s.hasPendingCallback = true) :
    cbs.foldl pushCallback s = { s with callbacks := s.callbacks ++ cbs } := by
  induction cbs generalizing s with
  | nil => simp
  | cons c cs ih =>
    rw [List.foldl_cons, pushCallback_flagged s c h]
    rw [ih { s with callbacks := s.callbacks ++ [c] } h]
    simp

theorem foldl_pushCallback_idle {Cb : Type} (cbs : List Cb) (s : Scheduler Cb)
    (h : s.hasPendingCallback = false) (hne : cbs ≠ []) :
    cbs.foldl pushCallback s =
      { callbacks := s.callbacks ++ cbs, hasPendingCallback := true,
        pendingFlushes := s.pendingFlushes + 1 } := by
  cases cbs with
  | nil => cases hne rfl
  | cons c cs =>
    rw [List.foldl_cons]
    have h1 : pushCallback s c =
        { callbacks := s.callbacks ++ [c], hasPendingCallback := true,
          pendingFlushes := s.pendingFlushes + 1 } := by
      simp [pushCallback, h]
    rw [h1, foldl_pushCallback_flagged cs _ rfl]
    simp

theorem flushLoop_pure {W Cb : Type} (f : Cb → W → W) (cbs : List Cb) (w : W)
    (s : Scheduler Cb) (log : List String) :
    flushLoop (pureStep f) cbs w s log
      = (cbs.foldl (fun w cb => f cb w) w, s, log) := by
  induction cbs generalizing w with
  | nil => rfl
  | cons c cs ih => simp [flushLoop, pureStep, ih]

theorem flushLoop_stepOr {W Cb : Type} (isBad : Cb → Bool) (e : String)
    (f : Cb → W → W) (cbs : List Cb) (w : W) (s : Scheduler Cb)
    (log : List String) :
    flushLoop (stepOr isBad e f) cbs w s log =
      ((cbs.filter (fun cb => !isBad cb)).foldl (fun w cb => f cb w) w, s,
        log ++ (cbs.filter isBad).map (fun _ => e)) := by
  induction cbs generalizing w log with
  | nil => simp [flushLoop]
  | cons c cs ih =>
    by_cases hb : isBad c = true
    · simp [flushLoop, stepOr, hb, ih]
    · simp [flushLoop, stepOr, hb, ih]

/-- C4: enqueueing any nonempty set of callbacks within one tick, starting
with no flush pending, appends them in order and schedules exactly one flush;
the flush first swaps the queue for an empty one and resets the flag
(`flushStart`), then runs every captured callback in enqueue order; and a
callback enqueued during the flush lands in the fresh queue and schedules a
new flush cycle, which is only possible because the flag was reset before the
callbacks ran. -/
theorem c4_batching :
    (∀ (Cb : Type) (cbs : List Cb) (s : Scheduler Cb),
      s.hasPendingCallback = false → cbs ≠ [] →
      cbs.foldl pushCallback s =
        { callbacks := s.callbacks ++ cbs, hasPendingCallback := true,
          pendingFlushes := s.pendingFlushes + 1 }) ∧
    (∀ (Cb W : Type) (f : Cb → W → W) (w : W) (s : Scheduler Cb),
      doCallback (pureStep f) w s
        = (s.callbacks.foldl (fun w cb => f cb w) w, flushStart s, [])) ∧
    (∀ (Cb W : Type) (step : Cb → W → CbResult W Cb) (w : W) (s : Scheduler Cb)
        (cb : Cb) (w1 : W) (enq : List Cb),
      s.callbacks = [cb] → step cb w = CbResult.ok w1 enq → enq ≠ [] →
      doCallback step w s =
        (w1, { callbacks := enq, hasPendingCallback := true,
               pendingFlushes := (s.pendingFlushes - 1) + 1 }, [])) := by
  refine ⟨?_, ?_, ?_⟩
  · intro Cb cbs s h hne
    exact foldl_pushCallback_idle cbs s h hne
  · intro Cb W f w s
    rw [doCallback, flushLoop_pure]
  · intro Cb W step w s cb w1 enq hcbs hstep hne
    rw [doCallback, hcbs]
    simp only [flushLoop, hstep]
    rw [foldl_pushCallback_idle enq (flushStart s) rfl hne]
    simp [flushStart]

/-- C4 witness: two callbacks enqueued in the same tick from the idle
scheduler produce exactly one scheduled flush, and that flush applies both in
enqueue order. -/
theorem c4_batching_witness :
    ([10, 20].foldl pushCallback (Scheduler.idle : Scheduler Nat ) =
      { callbacks := [10, 20], hasPendingCallback := true, pendingFlushes := 1 }) ∧
    doCallback (pureStep (fun cb w => w + cb)) 0
        { callbacks := [10, 20], hasPendingCallback := true, pendingFlushes := 1 }
      = (30, { callbacks := [], hasPendingCallback := false, pendingFlushes := 0 }, []) :=
  ⟨c4_batching.1 Nat [10, 20] Scheduler.idle rfl (by decide),
   c4_batching.2.1 Nat Nat (fun cb w => w + cb) 0
     { callbacks := [10, 20], hasPendingCallback := true, pendingFlushes := 1 }⟩

/-- C6: in a flush where the callbacks selected by `isBad` throw, every
non-throwing callback still runs in enqueue order, one failure is reported
(logged) per throwing callback in order, and the queue and flag are left in
the swapped, reset state for the next tick. -/
theorem c6_callback_isolation :
    ∀ (Cb W : Type) (isBad : Cb → Bool) (e : String) (f : Cb → W → W)
      (w : W) (s : Scheduler Cb),
      doCallback (stepOr isBad e f) w s =
        ((s.callbacks.filter (fun cb => !isBad cb)).foldl (fun w cb => f cb w) w,
         flushStart s,
         (s.callbacks.filter isBad).map (fun _ => e)) := by
  intro Cb W isBad e f w s
  rw [doCallback, flushLoop_stepOr]
  simp

end ReplicacheReact
